import Mathlib

/-!
Shallow embedding of the uniweb container lifecycle orchestrator: the
docker wrapper functions of `src/utils/docker_client.py` and the docker
lifecycle request handlers (`start_docker`, `stop_docker`, `remove_docker`,
`project_docker_status`) of `src/blueprints/project.py`.

The Status Store (`DOCKER_STATUS`, imported from `utils.redis_client`) is a
shared dict-style key-value map from project id to a lifecycle status
string; the background task `_build_and_start` is modelled as the ordered
list of effects its body performs, so that an unhandled exception at any
point is modelled by truncating that list to a prefix, followed by the
`finally` block.
-/

set_option linter.unusedVariables false

/-- Lifecycle status vocabulary: `stopped | starting | running`. -/
inductive DStatus where
  | stopped
  | starting
  | running
deriving DecidableEq, Repr

/-- Outcome of one call into the docker daemon, as discriminated by the
`except` clauses of `docker_client.py`: success, a NotFound-class error
(`docker.errors.NotFound` / `ImageNotFound`), an `APIError`/`BuildError`
reported by the daemon, or the backend being unreachable (any other
exception, e.g. a connection error). -/
inductive RtOutcome where
  | rtOk
  | rtNotFound
  | rtApiError
  | rtUnreachable
deriving DecidableEq, Repr

/-- Modelled from the spec: the Status Store (`utils.redis_client.docker_status`,
whose module is not among the provided sources; only its dict-style callers
are) is a shared key-value map from project identifier to lifecycle status
with atomic per-key get (`.get`), set (`[...] =`) and clear (`.pop`). -/
def StatusStore : Type := String → Option DStatus

/-- `DOCKER_STATUS.get(pid)`. -/
def getStatus (s : StatusStore) (pid : String) : Option DStatus := s pid

/-- `DOCKER_STATUS[pid] = v`. -/
def setStatus (s : StatusStore) (pid : String) (v : DStatus) : StatusStore :=
  fun k => if k = pid then some v else s k

/-- `DOCKER_STATUS.pop(pid, None)` (the key becomes absent). -/
def popStatus (s : StatusStore) (pid : String) : StatusStore :=
  fun k => if k = pid then none else s k

/-- A store with no entries. -/
def emptyStore : StatusStore := fun _ => none

/-- Environment fixing, per resource name, the outcome every docker daemon
call would have.  `clientInit = false` models `docker.from_env()` having
failed at import time, leaving `docker_client = None`
(docker_client.py lines 13-17). -/
structure DockerEnv where
  clientInit : Bool
  imageGet : String → RtOutcome
  containerGet : String → RtOutcome
  containerRaw : String → String
  buildOutcome : String → RtOutcome
  runOutcome : String → RtOutcome
  runCid : String → String
  startOutcome : String → RtOutcome
  stopOutcome : String → RtOutcome
  removeOutcome : String → RtOutcome

/-- `_docker_image_exists` (docker_client.py lines 20-34): `True` on success
of `images.get`, `False` on `ImageNotFound`, on any other exception, and
when the client is uninitialized. -/
def docker_image_exists (env : DockerEnv) (image_name : String) : Bool :=
  if env.clientInit = false then false
  else
    match env.imageGet image_name with
    | RtOutcome.rtOk => true
    | RtOutcome.rtNotFound => false
    | RtOutcome.rtApiError => false
    | RtOutcome.rtUnreachable => false

/-- `_docker_container_exists` (docker_client.py lines 37-51). -/
def docker_container_exists (env : DockerEnv) (container_name : String) : Bool :=
  if env.clientInit = false then false
  else
    match env.containerGet container_name with
    | RtOutcome.rtOk => true
    | RtOutcome.rtNotFound => false
    | RtOutcome.rtApiError => false
    | RtOutcome.rtUnreachable => false

/-- `_docker_container_status` (docker_client.py lines 54-72): returns the
string `"running"` exactly when the lookup succeeds and the raw container
status is `"running"`; `"stopped"` in every other case (non-running raw
status, `NotFound`, any other exception, uninitialized client). -/
def docker_container_status (env : DockerEnv) (container_name : String) : String :=
  if env.clientInit = false then "stopped"
  else
    match env.containerGet container_name with
    | RtOutcome.rtOk =>
        if env.containerRaw container_name = "running" then "running" else "stopped"
    | RtOutcome.rtNotFound => "stopped"
    | RtOutcome.rtApiError => "stopped"
    | RtOutcome.rtUnreachable => "stopped"

/-- `_docker_build_image` (docker_client.py lines 113-138): `True` on build
success, `False` on `BuildError`, on any other exception, and when the
client is uninitialized.  The build context path does not influence the
modelled outcome. -/
def docker_build_image (env : DockerEnv) (image_name : String) (path : Option String) : Bool :=
  if env.clientInit = false then false
  else
    match env.buildOutcome image_name with
    | RtOutcome.rtOk => true
    | RtOutcome.rtNotFound => false
    | RtOutcome.rtApiError => false
    | RtOutcome.rtUnreachable => false

/-- `_docker_run_container` (docker_client.py lines 141-178): returns the new
container id on success and the empty string on `APIError`, on any other
exception, and when the client is uninitialized. -/
def docker_run_container (env : DockerEnv) (image_name container_name : String)
    (host_port container_port cpu_count : Int) (mem_limit memswap_limit : String)
    (pids_limit : Int) : String :=
  if env.clientInit = false then ""
  else
    match env.runOutcome container_name with
    | RtOutcome.rtOk => env.runCid container_name
    | RtOutcome.rtNotFound => ""
    | RtOutcome.rtApiError => ""
    | RtOutcome.rtUnreachable => ""

/-- `_docker_start_container` (docker_client.py lines 181-199). -/
def docker_start_container (env : DockerEnv) (container_name : String) : Bool :=
  if env.clientInit = false then false
  else
    match env.startOutcome container_name with
    | RtOutcome.rtOk => true
    | RtOutcome.rtNotFound => false
    | RtOutcome.rtApiError => false
    | RtOutcome.rtUnreachable => false

/-- `_docker_stop_container` (docker_client.py lines 202-220). -/
def docker_stop_container (env : DockerEnv) (container_name : String) : Bool :=
  if env.clientInit = false then false
  else
    match env.stopOutcome container_name with
    | RtOutcome.rtOk => true
    | RtOutcome.rtNotFound => false
    | RtOutcome.rtApiError => false
    | RtOutcome.rtUnreachable => false

/-- `_docker_remove_container` (docker_client.py lines 223-241); the removal
is forced (`force=True`). -/
def docker_remove_container (env : DockerEnv) (container_name : String) : Bool :=
  if env.clientInit = false then false
  else
    match env.removeOutcome container_name with
    | RtOutcome.rtOk => true
    | RtOutcome.rtNotFound => false
    | RtOutcome.rtApiError => false
    | RtOutcome.rtUnreachable => false

/-- The fields of a project record consumed by the docker lifecycle handlers
(`database/models.py`; `port` and `docker_port` are free-form string fields
that may be unset). -/
structure Project where
  pid : String
  pname : String
  port : Option String
  docker_port : Option String
  docker_image : String
  docker_name : String
deriving DecidableEq, Repr

/-- The `current_app.config` values read by `start_docker`
(project.py lines 410 and 426-429), with their `.get` defaults already
resolved. -/
structure AppConfig where
  WORKING_DIR : Option String
  CPU_COUNT : Int
  MEM_LIMIT : String
  MEMSWAP_LIMIT : String
  PIDS_LIMIT : Int
deriving DecidableEq, Repr

/-- Accumulating decimal-digit parser: `none` when the character list is
empty or holds a non-digit. -/
def parse_digits : List Char → Option Nat → Option Nat
  | [], acc => acc
  | c :: cs, acc =>
    if '0' ≤ c ∧ c ≤ '9' then
      parse_digits cs (some ((acc.getD 0) * 10 + (c.toNat - 48)))
    else none

/-- Python `int(str)` on the decimal forms the port fields take: an optional
sign followed by digits; `none` models `int` raising `ValueError`. -/
def py_int (s : String) : Option Int :=
  match s.data with
  | '-' :: rest => (parse_digits rest none).map (fun n => -(n : Int))
  | '+' :: rest => (parse_digits rest none).map (fun n => (n : Int))
  | l => (parse_digits l none).map (fun n => (n : Int))

/-- One evaluation of the Python expression
`int(s) if s else None`: `some none` when `s` is falsy (absent or empty),
`some (some n)` when `int` parses, and `none` when `int` raises. -/
def py_opt_int (s : Option String) : Option (Option Int) :=
  match s with
  | none => some none
  | some str => if str = "" then some none else (py_int str).map some

/-- The port-parsing prologue of `start_docker` (project.py lines 418-423):
both conversions run inside one `try`, and any exception resets BOTH ports
to `None`. -/
def parse_ports (port docker_port : Option String) : Option Int × Option Int :=
  match py_opt_int port with
  | none => (none, none)
  | some host_port =>
    match py_opt_int docker_port with
    | none => (none, none)
    | some container_port => (host_port, container_port)

/-- Python truthiness test `not host_port`: true for `None` and for `0`
(project.py line 431). -/
def port_missing : Option Int → Bool
  | none => true
  | some n => n == 0

/-- The data captured by the `_build_and_start` closure when `start_docker`
spawns its background thread: names, parsed ports, resolved resource
limits, and the image/container existence answers queried by the handler
(project.py lines 449-453). -/
structure BgTask where
  pid : String
  image_name : String
  container_name : String
  host_port : Int
  container_port : Int
  cpu_count : Int
  mem_limit : String
  memswap_limit : String
  pids_limit : Int
  working_dir : Option String
  image_exists : Bool
  container_exists : Bool
deriving DecidableEq, Repr

/-- The effects the background task body performs, in program order: Status
Store writes and runtime-client invocations. -/
inductive Ev where
  | setSt (pid : String) (st : DStatus)
  | build (image_name : String) (path : Option String)
  | runC (image_name container_name : String) (host_port container_port cpu_count : Int)
      (mem_limit memswap_limit : String) (pids_limit : Int)
  | startC (container_name : String)
deriving DecidableEq, Repr

/-- Result of the `start_docker` request handler (project.py lines 403-535):
404 when the project record is missing, 400 on the port-configuration
check, 202 with status `starting` on the dedup path, and 202 with status
`starting` after spawning the background thread. -/
inductive StartResp where
  | notFound404
  | configError400
  | dedupStarting202
  | acceptedStarting202
deriving DecidableEq, Repr

/-- `start_docker` (project.py lines 403-535): the synchronous part of the
handler.  It returns the HTTP response, the Status Store as the handler
leaves it, and the background task it spawns, if any.  Note that the
handler itself performs no Status Store write: the `starting` write is the
first statement of the spawned task's body. -/
def start_docker (env : DockerEnv) (cfg : AppConfig) (proj : Option Project)
    (s : StatusStore) : StartResp × StatusStore × Option BgTask :=
  match proj with
  | none => (StartResp.notFound404, s, none)
  | some project =>
    let ports := parse_ports project.port project.docker_port
    if port_missing ports.1 || port_missing ports.2 then
      (StartResp.configError400, s, none)
    else if getStatus s project.pid = some DStatus.starting then
      (StartResp.dedupStarting202, s, none)
    else
      (StartResp.acceptedStarting202, s, some
        { pid := project.pid
          image_name := project.docker_image
          container_name := project.docker_name
          host_port := ports.1.getD 0
          container_port := ports.2.getD 0
          cpu_count := cfg.CPU_COUNT
          mem_limit := cfg.MEM_LIMIT
          memswap_limit := cfg.MEMSWAP_LIMIT
          pids_limit := cfg.PIDS_LIMIT
          working_dir := cfg.WORKING_DIR
          image_exists := docker_image_exists env project.docker_image
          container_exists := docker_container_exists env project.docker_name })

/-- The container phase of `_build_and_start` (project.py lines 474-519):
if the container was absent, `_docker_run_container` with the project's
ports and resource limits, writing `running` on a non-empty container id
and `stopped` otherwise; if the container was present,
`_docker_start_container`, writing `running` on success and `stopped` on
failure. -/
def container_phase (env : DockerEnv) (t : BgTask) : List Ev :=
  if t.container_exists = false then
    [Ev.runC t.image_name t.container_name t.host_port t.container_port t.cpu_count
      t.mem_limit t.memswap_limit t.pids_limit] ++
    (if docker_run_container env t.image_name t.container_name t.host_port
        t.container_port t.cpu_count t.mem_limit t.memswap_limit t.pids_limit = "" then
      [Ev.setSt t.pid DStatus.stopped]
    else
      [Ev.setSt t.pid DStatus.running])
  else
    [Ev.startC t.container_name] ++
    (if docker_start_container env t.container_name = true then
      [Ev.setSt t.pid DStatus.running]
    else
      [Ev.setSt t.pid DStatus.stopped])

/-- The body of `_build_and_start` (project.py lines 456-519) as its ordered
effect list: write `starting`; if the image was absent, build, and on build
failure write `stopped` and return; otherwise proceed to the container
phase. -/
def build_and_start (env : DockerEnv) (t : BgTask) : List Ev :=
  [Ev.setSt t.pid DStatus.starting] ++
  (if t.image_exists = false then
    [Ev.build t.image_name t.working_dir] ++
    (if docker_build_image env t.image_name t.working_dir = false then
      [Ev.setSt t.pid DStatus.stopped]
    else
      container_phase env t)
  else
    container_phase env t)

/-- Apply the Status Store writes of an effect list, in order. -/
def apply_events (s : StatusStore) (evs : List Ev) : StatusStore :=
  evs.foldl (fun st e =>
    match e with
    | Ev.setSt pid v => setStatus st pid v
    | _ => st) s

/-- The `finally` block of `_build_and_start` (project.py lines 520-526): if
the entry still reads `starting` when the task ends, force it to
`stopped`. -/
def finally_fix (s : StatusStore) (pid : String) : StatusStore :=
  if getStatus s pid = some DStatus.starting then setStatus s pid DStatus.stopped else s

/-- One execution of the background task in which an unhandled exception
aborts the body after its first `k` effects (`k` at or beyond the trace
length is a fault-free run); the `finally` block always runs afterwards. -/
def run_build_and_start (env : DockerEnv) (t : BgTask) (s : StatusStore) (k : Nat) :
    StatusStore :=
  finally_fix (apply_events s ((build_and_start env t).take k)) t.pid

/-- A fault-free execution of the background task. -/
def run_task (env : DockerEnv) (t : BgTask) (s : StatusStore) : StatusStore :=
  finally_fix (apply_events s (build_and_start env t)) t.pid

/-- Result of the `stop_docker` request handler (project.py lines 538-562). -/
inductive StopResp where
  | stopNoProject404
  | stopNoContainer404
  | stopFailed500
  | stopOk200
deriving DecidableEq, Repr

/-- `stop_docker` (project.py lines 538-562): 404 when the container does
not exist (no state change), 500 when `_docker_stop_container` fails (no
state change), and on success the entry is written to `stopped`. -/
def stop_docker (env : DockerEnv) (proj : Option Project) (s : StatusStore) :
    StopResp × StatusStore :=
  match proj with
  | none => (StopResp.stopNoProject404, s)
  | some project =>
    if docker_container_exists env project.docker_name = false then
      (StopResp.stopNoContainer404, s)
    else if docker_stop_container env project.docker_name = false then
      (StopResp.stopFailed500, s)
    else
      (StopResp.stopOk200, setStatus s project.pid DStatus.stopped)

/-- Result of the `remove_docker` request handler (project.py lines 565-594). -/
inductive RemoveResp where
  | removeNoProject404
  | removeNoContainer404
  | removeFailed500
  | removeOk200
deriving DecidableEq, Repr

/-- `remove_docker` (project.py lines 565-594): 404 when the container does
not exist (no state change), 500 when `_docker_remove_container` fails (no
state change), and on success the entry is popped from the store. -/
def remove_docker (env : DockerEnv) (proj : Option Project) (s : StatusStore) :
    RemoveResp × StatusStore :=
  match proj with
  | none => (RemoveResp.removeNoProject404, s)
  | some project =>
    if docker_container_exists env project.docker_name = false then
      (RemoveResp.removeNoContainer404, s)
    else if docker_remove_container env project.docker_name = false then
      (RemoveResp.removeFailed500, s)
    else
      (RemoveResp.removeOk200, popStatus s project.pid)

/-- Result of the `project_docker_status` request handler. -/
inductive StatusResp where
  | statusNoProject404
  | statusOk (st : DStatus)
deriving DecidableEq, Repr

/-- `project_docker_status` (project.py lines 597-618): a present Status
Store entry is returned verbatim; otherwise the handler reconciles against
the runtime, mapping a running container to `running` and everything else
to `stopped`. -/
def project_docker_status (env : DockerEnv) (proj : Option Project) (s : StatusStore) :
    StatusResp :=
  match proj with
  | none => StatusResp.statusNoProject404
  | some project =>
    match getStatus s project.pid with
    | some st => StatusResp.statusOk st
    | none =>
      if docker_container_exists env project.docker_name = true then
        if docker_container_status env project.docker_name = "running" then
          StatusResp.statusOk DStatus.running
        else
          StatusResp.statusOk DStatus.stopped
      else
        StatusResp.statusOk DStatus.stopped

/-- The reconciliation fallback of `project_docker_status`
(project.py lines 610-618), as a standalone status value. -/
def reconcile (env : DockerEnv) (container_name : String) : DStatus :=
  if docker_container_exists env container_name = true then
    (if docker_container_status env container_name = "running" then DStatus.running
     else DStatus.stopped)
  else DStatus.stopped

/-- Container-touching runtime operations of the task body. -/
def touches_container : Ev → Bool
  | Ev.runC _ _ _ _ _ _ _ _ => true
  | Ev.startC _ => true
  | _ => false

/-- Resolved configuration matching the repository defaults. -/
def cfg0 : AppConfig :=
  { WORKING_DIR := none, CPU_COUNT := 1, MEM_LIMIT := "1g", MEMSWAP_LIMIT := "1.5g",
    PIDS_LIMIT := 8 }

/-- A fully configured project fixture. -/
def p0 : Project :=
  { pid := "p1", pname := "demo", port := some "20001", docker_port := some "8080",
    docker_image := "img:v1", docker_name := "c1" }

/-- The same project with its host port unset. -/
def pNoPort : Project := { p0 with port := none }

/-- A store in which project `p1` is `starting`. -/
def sStarting : StatusStore := setStatus emptyStore "p1" DStatus.starting

/-- Runtime environment fixture: healthy daemon, image present, container
absent, every operation succeeding. -/
def envOk : DockerEnv :=
  { clientInit := true
    imageGet := fun _ => RtOutcome.rtOk
    containerGet := fun _ => RtOutcome.rtNotFound
    containerRaw := fun _ => "running"
    buildOutcome := fun _ => RtOutcome.rtOk
    runOutcome := fun _ => RtOutcome.rtOk
    runCid := fun _ => "abc123"
    startOutcome := fun _ => RtOutcome.rtOk
    stopOutcome := fun _ => RtOutcome.rtOk
    removeOutcome := fun _ => RtOutcome.rtOk }

/-- Like `envOk` but with the container present and running. -/
def envCont : DockerEnv := { envOk with containerGet := fun _ => RtOutcome.rtOk }

/-- A daemon that actually holds a running container, but whose client
handle failed to initialize (`docker_client = None`). -/
def envDead : DockerEnv := { envCont with clientInit := false }

/-- Environment in which every daemon call has the one given outcome. -/
def envWith (o : RtOutcome) : DockerEnv :=
  { clientInit := true
    imageGet := fun _ => o
    containerGet := fun _ => o
    containerRaw := fun _ => "running"
    buildOutcome := fun _ => o
    runOutcome := fun _ => o
    runCid := fun _ => "abc123"
    startOutcome := fun _ => o
    stopOutcome := fun _ => o
    removeOutcome := fun _ => o }

/-- The background task `start_docker envOk cfg0 (some p0)` spawns. -/
def t1 : BgTask :=
  { pid := "p1", image_name := "img:v1", container_name := "c1", host_port := 20001,
    container_port := 8080, cpu_count := 1, mem_limit := "1g", memswap_limit := "1.5g",
    pids_limit := 8, working_dir := none, image_exists := true, container_exists := false }

/-- The background task spawned when the docker client is uninitialized:
both existence checks came back false. -/
def tDead : BgTask := { t1 with image_exists := false, container_exists := false }

/-- The task variant in which both the image and the container exist. -/
def t2 : BgTask := { t1 with container_exists := true }

theorem getStatus_set_self (s : StatusStore) (pid : String) (v : DStatus) :
    getStatus (setStatus s pid v) pid = some v := by
  simp [getStatus, setStatus]

theorem build_and_start_head (env : DockerEnv) (t : BgTask) :
    (build_and_start env t).head? = some (Ev.setSt t.pid DStatus.starting) := by
  simp [build_and_start]

/-- Claim C1: for every execution of the start background task and every
exit path — normal return, build failure, run failure, start-existing
failure, or an unhandled exception cutting the body after any prefix of its
effects — if the Status Store entry still holds `starting` when the task
ends, the `finally` block sets it to `stopped` before the task terminates,
and the final observed status is never `starting`. -/
theorem C1_no_orphaned_starting (env : DockerEnv) (t : BgTask) (s : StatusStore) (k : Nat) :
    (getStatus (apply_events s ((build_and_start env t).take k)) t.pid =
        some DStatus.starting →
      getStatus (run_build_and_start env t s k) t.pid = some DStatus.stopped) ∧
    getStatus (run_build_and_start env t s k) t.pid ≠ some DStatus.starting := by
  unfold run_build_and_start finally_fix
  by_cases h : getStatus (apply_events s ((build_and_start env t).take k)) t.pid =
      some DStatus.starting
  · simp [h, getStatus_set_self]
  · simp [h]

/-- Witness for C1: a run under a dead docker client, interrupted by a fault
right after the `starting` write, ends with the entry forced to `stopped`. -/
theorem C1_no_orphaned_starting_witness :
    getStatus (apply_events emptyStore ((build_and_start envDead tDead).take 1)) tDead.pid =
      some DStatus.starting ∧
    getStatus (run_build_and_start envDead tDead emptyStore 1) tDead.pid =
      some DStatus.stopped :=
  ⟨by decide, (C1_no_orphaned_starting envDead tDead emptyStore 1).1 (by decide)⟩

/-- Claim C2 counterexample: a project whose Status Store entry is `starting`
but whose host port is unset is rejected with the configuration error — the
port check (project.py line 431) runs before the dedup check (line 443) —
contradicting the claim that every start on a `starting` project, even one
with a missing port, returns `starting` without error. -/
theorem C2_counterexample :
    pNoPort.port = none ∧
    getStatus sStarting pNoPort.pid = some DStatus.starting ∧
    (start_docker envOk cfg0 (some pNoPort) sStarting).1 = StartResp.configError400 ∧
    (start_docker envOk cfg0 (some pNoPort) sStarting).1 ≠ StartResp.dedupStarting202 := by
  decide

/-- Claim C2 (amended): for every project whose ports parse to non-zero
values and whose Status Store entry is `starting` when the start request
arrives, the handler returns state `starting` immediately, spawns no
background task, performs no state change and raises no error. -/
theorem C2_start_dedup (env : DockerEnv) (cfg : AppConfig) (project : Project)
    (s : StatusStore)
    (hp : port_missing (parse_ports project.port project.docker_port).1 = false)
    (hc : port_missing (parse_ports project.port project.docker_port).2 = false)
    (hs : getStatus s project.pid = some DStatus.starting) :
    start_docker env cfg (some project) s = (StartResp.dedupStarting202, s, none) := by
  simp [start_docker, hp, hc, hs]

/-- Witness for the amended C2. -/
theorem C2_start_dedup_witness :
    start_docker envOk cfg0 (some p0) sStarting =
      (StartResp.dedupStarting202, sStarting, none) :=
  C2_start_dedup envOk cfg0 p0 sStarting (by decide) (by decide) (by decide)

/-- Claim C3 counterexample: after a first start request has returned
(spawning a background task), the Status Store still holds no entry for the
project — `starting` was not written before the task launch or the return —
and a second start request issued at that point spawns a second background
task. -/
theorem C3_counterexample :
    ((start_docker envOk cfg0 (some p0) emptyStore).2.2).isSome = true ∧
    getStatus (start_docker envOk cfg0 (some p0) emptyStore).2.1 p0.pid = none ∧
    ((start_docker envOk cfg0 (some p0)
        ((start_docker envOk cfg0 (some p0) emptyStore).2.1)).2.2).isSome = true := by
  decide

/-- Claim C3 (amended): the handler performs no Status Store write before
launching the background task; the task itself writes `starting` as its
first effect, and only once that write has landed does a later start
request for the same project observe `starting`, return the dedup response
and spawn no further task. -/
theorem C3_starting_written_by_task (env : DockerEnv) (cfg : AppConfig)
    (project : Project) (s : StatusStore) (t : BgTask)
    (h : (start_docker env cfg (some project) s).2.2 = some t) :
    (start_docker env cfg (some project) s).2.1 = s ∧
    (build_and_start env t).head? = some (Ev.setSt project.pid DStatus.starting) ∧
    start_docker env cfg (some project) (setStatus s project.pid DStatus.starting) =
      (StartResp.dedupStarting202, setStatus s project.pid DStatus.starting, none) := by
  by_cases hb : (port_missing (parse_ports project.port project.docker_port).1 ||
      port_missing (parse_ports project.port project.docker_port).2) = true
  · simp [start_docker, hb] at h
  · by_cases hs : getStatus s project.pid = some DStatus.starting
    · simp [start_docker, hb, hs] at h
    · rw [Bool.not_eq_true] at hb
      have hpid : t.pid = project.pid := by
        simp [start_docker, hb, hs] at h
        rw [← h]
      refine ⟨by simp [start_docker, hb, hs], ?_, ?_⟩
      · rw [build_and_start_head, hpid]
      · simp [start_docker, hb, getStatus_set_self]

/-- Witness for the amended C3. -/
theorem C3_starting_written_by_task_witness :
    (start_docker envOk cfg0 (some p0) emptyStore).2.1 = emptyStore ∧
    (build_and_start envOk t1).head? = some (Ev.setSt p0.pid DStatus.starting) ∧
    start_docker envOk cfg0 (some p0) (setStatus emptyStore p0.pid DStatus.starting) =
      (StartResp.dedupStarting202, setStatus emptyStore p0.pid DStatus.starting, none) :=
  C3_starting_written_by_task envOk cfg0 p0 emptyStore t1 (by decide)

/-- Claim C8: a project with a missing or unparsable host or container port
is rejected synchronously with the configuration error, with no Status
Store mutation and no background task spawned. -/
theorem C8_config_error (env : DockerEnv) (cfg : AppConfig) (project : Project)
    (s : StatusStore)
    (h : (parse_ports project.port project.docker_port).1 = none ∨
         (parse_ports project.port project.docker_port).2 = none) :
    start_docker env cfg (some project) s = (StartResp.configError400, s, none) := by
  have hb : (port_missing (parse_ports project.port project.docker_port).1 ||
      port_missing (parse_ports project.port project.docker_port).2) = true := by
    rcases h with h | h <;> simp [h, port_missing]
  simp [start_docker, hb]

/-- Witness for C8. -/
theorem C8_config_error_witness :
    (parse_ports pNoPort.port pNoPort.docker_port).1 = none ∧
    start_docker envOk cfg0 (some pNoPort) emptyStore =
      (StartResp.configError400, emptyStore, none) :=
  ⟨by decide, C8_config_error envOk cfg0 pNoPort emptyStore (Or.inl (by decide))⟩

/-- Claim C4: the background task's decision tree and postconditions: when
the image was absent a build is invoked, and on build failure the entry is
written `stopped` with no container operation performed; otherwise, when
the container was absent, run is invoked with the project's ports and
resource limits, writing `running` on success and `stopped` on failure;
when the container was present, start-existing is invoked, writing
`running` on success and `stopped` on failure. -/
theorem C4_task_decision_tree (env : DockerEnv) (t : BgTask) (s : StatusStore) :
    (t.image_exists = false →
      Ev.build t.image_name t.working_dir ∈ build_and_start env t) ∧
    (t.image_exists = false → docker_build_image env t.image_name t.working_dir = false →
      getStatus (run_task env t s) t.pid = some DStatus.stopped ∧
      ∀ e ∈ build_and_start env t, touches_container e = false) ∧
    ((t.image_exists = true ∨ docker_build_image env t.image_name t.working_dir = true) →
      (t.container_exists = false →
        Ev.runC t.image_name t.container_name t.host_port t.container_port t.cpu_count
          t.mem_limit t.memswap_limit t.pids_limit ∈ build_and_start env t ∧
        (docker_run_container env t.image_name t.container_name t.host_port t.container_port
            t.cpu_count t.mem_limit t.memswap_limit t.pids_limit ≠ "" →
          getStatus (run_task env t s) t.pid = some DStatus.running) ∧
        (docker_run_container env t.image_name t.container_name t.host_port t.container_port
            t.cpu_count t.mem_limit t.memswap_limit t.pids_limit = "" →
          getStatus (run_task env t s) t.pid = some DStatus.stopped)) ∧
      (t.container_exists = true →
        Ev.startC t.container_name ∈ build_and_start env t ∧
        (docker_start_container env t.container_name = true →
          getStatus (run_task env t s) t.pid = some DStatus.running) ∧
        (docker_start_container env t.container_name = false →
          getStatus (run_task env t s) t.pid = some DStatus.stopped))) := by
  by_cases hI : t.image_exists = false <;>
  by_cases hB : docker_build_image env t.image_name t.working_dir = false <;>
  by_cases hC : t.container_exists = false <;>
  by_cases hR : docker_run_container env t.image_name t.container_name t.host_port
      t.container_port t.cpu_count t.mem_limit t.memswap_limit t.pids_limit = "" <;>
  by_cases hS : docker_start_container env t.container_name = true <;>
  simp_all [build_and_start, container_phase, run_task, apply_events, finally_fix,
    getStatus, setStatus, touches_container]

/-- Witness for C4: with image and container both present and the
start-existing call succeeding, the task invokes start-existing and ends
with the entry at `running`. -/
theorem C4_task_decision_tree_witness :
    Ev.startC t2.container_name ∈ build_and_start envCont t2 ∧
    getStatus (run_task envCont t2 emptyStore) t2.pid = some DStatus.running := by
  have h := ((C4_task_decision_tree envCont t2 emptyStore).2.2 (Or.inl (by decide))).2
    (by decide)
  exact ⟨h.1, h.2.1 (by decide)⟩

/-- Claim C5: a present Status Store entry is returned verbatim by the
status query; with no entry, the query returns `running` exactly when the
client is initialized, the container lookup for the project's container
name succeeds, and the raw runtime status is `"running"`; it returns
`stopped` in every other case. -/
theorem C5_status_query (env : DockerEnv) (project : Project) (s : StatusStore) :
    (∀ st, getStatus s project.pid = some st →
      project_docker_status env (some project) s = StatusResp.statusOk st) ∧
    (getStatus s project.pid = none →
      project_docker_status env (some project) s =
        StatusResp.statusOk
          (if env.clientInit = true ∧ env.containerGet project.docker_name = RtOutcome.rtOk ∧
              env.containerRaw project.docker_name = "running"
           then DStatus.running else DStatus.stopped)) := by
  constructor
  · intro st hst
    simp [project_docker_status, hst]
  · intro hn
    cases hcl : env.clientInit
    · simp [project_docker_status, hn, docker_container_exists, docker_container_status, hcl]
    · cases hg : env.containerGet project.docker_name <;>
        by_cases hr : env.containerRaw project.docker_name = "running" <;>
        simp [project_docker_status, hn, docker_container_exists, docker_container_status,
          hcl, hg, hr]

/-- Witness for C5: verbatim return of a stored `starting`, and the
reconciler fallback mapping a running container to `running`. -/
theorem C5_status_query_witness :
    project_docker_status envCont (some p0) sStarting =
      StatusResp.statusOk DStatus.starting ∧
    project_docker_status envCont (some p0) emptyStore =
      StatusResp.statusOk DStatus.running :=
  ⟨(C5_status_query envCont p0 sStarting).1 DStatus.starting (by decide),
   ((C5_status_query envCont p0 emptyStore).2 (by decide)).trans (by decide)⟩

/-- Claim C6: stop on a project whose container does not exist returns the
not-found error with the Status Store unchanged; when the container exists,
`stopped` is written exactly when the runtime stop call succeeds, and on
runtime failure an error is reported with the store unchanged. -/
theorem C6_stop_semantics (env : DockerEnv) (project : Project) (s : StatusStore) :
    (docker_container_exists env project.docker_name = false →
      stop_docker env (some project) s = (StopResp.stopNoContainer404, s)) ∧
    (docker_container_exists env project.docker_name = true →
      (docker_stop_container env project.docker_name = true →
        stop_docker env (some project) s =
          (StopResp.stopOk200, setStatus s project.pid DStatus.stopped)) ∧
      (docker_stop_container env project.docker_name = false →
        stop_docker env (some project) s = (StopResp.stopFailed500, s))) := by
  refine ⟨fun h => by simp [stop_docker, h], fun h => ⟨fun h2 => ?_, fun h2 => ?_⟩⟩
  · simp [stop_docker, h, h2]
  · simp [stop_docker, h, h2]

/-- Witness for C6: a successful stop writes `stopped`; with the container
absent the handler reports not-found and leaves the entry unchanged. -/
theorem C6_stop_semantics_witness :
    stop_docker envCont (some p0) sStarting =
      (StopResp.stopOk200, setStatus sStarting p0.pid DStatus.stopped) ∧
    stop_docker envOk (some p0) sStarting = (StopResp.stopNoContainer404, sStarting) :=
  ⟨((C6_stop_semantics envCont p0 sStarting).2 (by decide)).1 (by decide),
   (C6_stop_semantics envOk p0 sStarting).1 (by decide)⟩

/-- Claim C7: remove on a project whose container does not exist returns the
not-found error with no state change; when the container exists and forced
removal succeeds the Status Store entry is cleared entirely (the key
becomes absent, not `stopped`), so a subsequent status query takes the
reconciler path; on removal failure an error is reported and the entry is
kept. -/
theorem C7_remove_semantics (env : DockerEnv) (project : Project) (s : StatusStore) :
    (docker_container_exists env project.docker_name = false →
      remove_docker env (some project) s = (RemoveResp.removeNoContainer404, s)) ∧
    (docker_container_exists env project.docker_name = true →
      (docker_remove_container env project.docker_name = true →
        remove_docker env (some project) s =
          (RemoveResp.removeOk200, popStatus s project.pid) ∧
        getStatus (popStatus s project.pid) project.pid = none ∧
        project_docker_status env (some project) (popStatus s project.pid) =
          StatusResp.statusOk (reconcile env project.docker_name)) ∧
      (docker_remove_container env project.docker_name = false →
        remove_docker env (some project) s = (RemoveResp.removeFailed500, s))) := by
  refine ⟨fun h => by simp [remove_docker, h], fun h => ⟨fun h2 => ?_, fun h2 => ?_⟩⟩
  · refine ⟨by simp [remove_docker, h, h2], by simp [getStatus, popStatus], ?_⟩
    by_cases hr : docker_container_status env project.docker_name = "running" <;>
      simp [project_docker_status, reconcile, getStatus, popStatus, h, hr]
  · simp [remove_docker, h, h2]

/-- Witness for C7: a successful remove clears the entry. -/
theorem C7_remove_semantics_witness :
    remove_docker envCont (some p0) sStarting =
      (RemoveResp.removeOk200, popStatus sStarting p0.pid) ∧
    getStatus (popStatus sStarting p0.pid) p0.pid = none := by
  have h := ((C7_remove_semantics envCont p0 sStarting).2 (by decide)).1 (by decide)
  exact ⟨h.1, h.2.1⟩

/-- Claim C9 counterexample: the wrapper operations do not distinguish the
three failure outcomes in their results — for each operation consumed by the
orchestrator, a not-found outcome, a failed operation and an unreachable
backend all produce the same returned value. -/
theorem C9_counterexample :
    RtOutcome.rtNotFound ≠ RtOutcome.rtApiError ∧
    RtOutcome.rtApiError ≠ RtOutcome.rtUnreachable ∧
    docker_stop_container (envWith RtOutcome.rtNotFound) "c1" =
      docker_stop_container (envWith RtOutcome.rtApiError) "c1" ∧
    docker_stop_container (envWith RtOutcome.rtApiError) "c1" =
      docker_stop_container (envWith RtOutcome.rtUnreachable) "c1" ∧
    docker_start_container (envWith RtOutcome.rtNotFound) "c1" =
      docker_start_container (envWith RtOutcome.rtApiError) "c1" ∧
    docker_remove_container (envWith RtOutcome.rtNotFound) "c1" =
      docker_remove_container (envWith RtOutcome.rtApiError) "c1" ∧
    docker_container_exists (envWith RtOutcome.rtApiError) "c1" =
      docker_container_exists (envWith RtOutcome.rtNotFound) "c1" ∧
    docker_image_exists (envWith RtOutcome.rtApiError) "img:v1" =
      docker_image_exists (envWith RtOutcome.rtNotFound) "img:v1" ∧
    docker_container_status (envWith RtOutcome.rtNotFound) "c1" =
      docker_container_status (envWith RtOutcome.rtUnreachable) "c1" ∧
    docker_build_image (envWith RtOutcome.rtApiError) "img:v1" none =
      docker_build_image (envWith RtOutcome.rtUnreachable) "img:v1" none ∧
    docker_run_container (envWith RtOutcome.rtNotFound) "img:v1" "c1" 20001 8080 1
        "1g" "1.5g" 8 =
      docker_run_container (envWith RtOutcome.rtApiError) "img:v1" "c1" 20001 8080 1
        "1g" "1.5g" 8 := by
  decide

/-- Claim C9 (amended): every wrapper operation collapses the three failure
outcomes (resource not found, operation failed, backend unreachable) into
one failure/default return value — `false` for the boolean operations, the
empty string for run, `"stopped"` for the status query; the outcome kinds
are distinguished only in log output. -/
theorem C9_collapsed_failures (env : DockerEnv) (n : String) (path : Option String)
    (a b c : Int) (ml msl : String) (pl : Int) :
    (env.imageGet n ≠ RtOutcome.rtOk → docker_image_exists env n = false) ∧
    (env.containerGet n ≠ RtOutcome.rtOk →
      docker_container_exists env n = false ∧ docker_container_status env n = "stopped") ∧
    (env.buildOutcome n ≠ RtOutcome.rtOk → docker_build_image env n path = false) ∧
    (env.runOutcome n ≠ RtOutcome.rtOk → docker_run_container env n n a b c ml msl pl = "") ∧
    (env.startOutcome n ≠ RtOutcome.rtOk → docker_start_container env n = false) ∧
    (env.stopOutcome n ≠ RtOutcome.rtOk → docker_stop_container env n = false) ∧
    (env.removeOutcome n ≠ RtOutcome.rtOk → docker_remove_container env n = false) := by
  refine ⟨?_, ?_, ?_, ?_, ?_, ?_, ?_⟩
  · intro h; cases hg : env.imageGet n <;> simp_all [docker_image_exists]
  · intro h; cases hg : env.containerGet n <;>
      simp_all [docker_container_exists, docker_container_status]
  · intro h; cases hg : env.buildOutcome n <;> simp_all [docker_build_image]
  · intro h; cases hg : env.runOutcome n <;> simp_all [docker_run_container]
  · intro h; cases hg : env.startOutcome n <;> simp_all [docker_start_container]
  · intro h; cases hg : env.stopOutcome n <;> simp_all [docker_stop_container]
  · intro h; cases hg : env.removeOutcome n <;> simp_all [docker_remove_container]

/-- Witness for the amended C9. -/
theorem C9_collapsed_failures_witness :
    (envWith RtOutcome.rtUnreachable).stopOutcome "c1" ≠ RtOutcome.rtOk ∧
    docker_stop_container (envWith RtOutcome.rtUnreachable) "c1" = false :=
  ⟨by decide,
   (C9_collapsed_failures (envWith RtOutcome.rtUnreachable) "c1" none 1 2 3 "1g" "1.5g"
       8).2.2.2.2.2.1 (by decide)⟩

/-- Claim C10: with the docker client uninitialized, every wrapper operation
returns its failure/default value; consequently stop and remove report
not-found regardless of the daemon's actual state, a status query with no
Status Store entry reports `stopped`, and any spawned start background task
ends with the entry set to `stopped`. -/
theorem C10_client_uninitialized (env : DockerEnv) (cfg : AppConfig) (project : Project)
    (s : StatusStore) (h : env.clientInit = false) :
    docker_image_exists env project.docker_image = false ∧
    docker_container_exists env project.docker_name = false ∧
    docker_container_status env project.docker_name = "stopped" ∧
    docker_build_image env project.docker_image cfg.WORKING_DIR = false ∧
    docker_start_container env project.docker_name = false ∧
    docker_stop_container env project.docker_name = false ∧
    docker_remove_container env project.docker_name = false ∧
    (∀ a b c ml msl pl,
      docker_run_container env project.docker_image project.docker_name a b c ml msl pl
        = "") ∧
    stop_docker env (some project) s = (StopResp.stopNoContainer404, s) ∧
    remove_docker env (some project) s = (RemoveResp.removeNoContainer404, s) ∧
    (getStatus s project.pid = none →
      project_docker_status env (some project) s = StatusResp.statusOk DStatus.stopped) ∧
    (∀ t s2, (start_docker env cfg (some project) s).2.2 = some t →
      getStatus (run_task env t s2) t.pid = some DStatus.stopped) := by
  refine ⟨by simp [docker_image_exists, h], by simp [docker_container_exists, h],
    by simp [docker_container_status, h], by simp [docker_build_image, h],
    by simp [docker_start_container, h], by simp [docker_stop_container, h],
    by simp [docker_remove_container, h],
    by intro a b c ml msl pl; simp [docker_run_container, h],
    by simp [stop_docker, docker_container_exists, h],
    by simp [remove_docker, docker_container_exists, h],
    by intro hn; simp [project_docker_status, hn, docker_container_exists, h], ?_⟩
  intro t s2 hspawn
  by_cases hb : (port_missing (parse_ports project.port project.docker_port).1 ||
      port_missing (parse_ports project.port project.docker_port).2) = true
  · simp [start_docker, hb] at hspawn
  · by_cases hs : getStatus s project.pid = some DStatus.starting
    · simp [start_docker, hb, hs] at hspawn
    · rw [Bool.not_eq_true] at hb
      simp [start_docker, hb, hs] at hspawn
      have hIE : t.image_exists = false := by
        rw [← hspawn]
        simp [docker_image_exists, h]
      have hBF : docker_build_image env t.image_name t.working_dir = false := by
        simp [docker_build_image, h]
      simp [run_task, build_and_start, hIE, hBF, apply_events, finally_fix,
        getStatus, setStatus]

/-- Witness for C10: a daemon that actually holds a running container, seen
through an uninitialized client: stop reports not-found, and the start
background task ends `stopped`. -/
theorem C10_client_uninitialized_witness :
    envDead.clientInit = false ∧
    envDead.containerGet p0.docker_name = RtOutcome.rtOk ∧
    envDead.containerRaw p0.docker_name = "running" ∧
    stop_docker envDead (some p0) emptyStore = (StopResp.stopNoContainer404, emptyStore) ∧
    getStatus (run_task envDead tDead emptyStore) tDead.pid = some DStatus.stopped := by
  have hthm := C10_client_uninitialized envDead cfg0 p0 emptyStore (by decide)
  exact ⟨by decide, by decide, by decide, hthm.2.2.2.2.2.2.2.2.1,
    hthm.2.2.2.2.2.2.2.2.2.2.2 tDead emptyStore (by decide)⟩
